import Mathlib

/-!
Shallow embedding of the session/broadcast core of `docker-server.js`
(collaborative editing relay): the in-memory session registry, the
connection-to-session binding held per WebSocket connection, the
broadcast fan-out, the close handler with deferred empty-session
cleanup, and the hourly max-age sweep.

Connections are identified by natural numbers. A connection's
`readyState` is modelled as a `Bool` (`true` = OPEN). The per-connection
`currentSessionId` closure variable of the server is modelled as the
`connSession` field of the server state. The session map is an
association list mirroring the insertion-ordered JS `Map`.
-/

namespace DockerServer

/-- Outbound protocol messages produced by the server
(`error`, `init`, `participants`, `codeUpdate`, `languageUpdate`,
`cursorUpdate`), mirroring the JSON payloads in `docker-server.js`. -/
inductive Msg where
  | error (message : String)
  | init (code language : String) (participants : Nat)
  | participants (count : Nat)
  | codeUpdate (code : String)
  | languageUpdate (language : String)
  | cursorUpdate (userId : String) (position : Nat)
  deriving DecidableEq

/-- A session record: `sessions.set(sessionId, { id, code, language,
clients, createdAt })`. `clients` is the JS `Set` of member connections,
kept as a duplicate-free list; `createdAt` is a timestamp in
milliseconds. -/
structure Session where
  id : String
  code : String
  language : String
  clients : List Nat
  createdAt : Nat
  deriving DecidableEq

/-- The server's mutable state: the `sessions` map, each connection's
`currentSessionId` closure variable, and each connection's transport
`readyState` (`true` = `WebSocket.OPEN`). -/
structure SrvState where
  sessions : List (String × Session)
  connSession : Nat → Option String
  readyState : Nat → Bool

/-- `sessions.get(k)` on the association list. -/
def lookupS : List (String × Session) → String → Option Session
  | [], _ => none
  | (k2, v) :: rest, k => if k2 = k then some v else lookupS rest k

/-- `sessions.set(k, v)`: replace in place if the key is present,
append otherwise (JS `Map` insertion-order semantics). -/
def setS : List (String × Session) → String → Session → List (String × Session)
  | [], k, v => [(k, v)]
  | (k2, v2) :: rest, k, v =>
      if k2 = k then (k, v) :: rest else (k2, v2) :: setS rest k v

/-- `sessions.delete(k)`. -/
def deleteS (m : List (String × Session)) (k : String) : List (String × Session) :=
  m.filter (fun p => p.1 ≠ k)

/-- `session.clients.add(c)`: a `Set` add, no duplicate entries. -/
def addClient (c : Nat) (cls : List Nat) : List Nat :=
  if c ∈ cls then cls else cls ++ [c]

/-- Point update of a connection-to-session binding. -/
def updConn (f : Nat → Option String) (c : Nat) (v : Option String) : Nat → Option String :=
  fun d => if d = c then v else f d

/-- Point update of a connection's transport state. -/
def updReady (f : Nat → Bool) (c : Nat) (v : Bool) : Nat → Bool :=
  fun d => if d = c then v else f d

/-- `broadcastToSession(sessionId, message, excludeWs)`: looks the
session up at call time; sends to every client that is not the excluded
one and whose `readyState === WebSocket.OPEN`. Returns the delivery
list (recipient, message). -/
def broadcastToSession (st : SrvState) (sid : String) (m : Msg)
    (excludeWs : Option Nat) : List (Nat × Msg) :=
  match lookupS st.sessions sid with
  | none => []
  | some sess =>
      (sess.clients.filter
        (fun cl => decide (excludeWs ≠ some cl) && st.readyState cl)).map
        (fun cl => (cl, m))

/-- The `join` case of the message handler: set `currentSessionId`
first, then look the session up; on miss reply `error`; on hit add the
client, send `init` to the joiner, and broadcast the fresh participant
count to all members (no exclusion). -/
def handleJoin (st : SrvState) (ws : Nat) (sid : String) :
    SrvState × List (Nat × Msg) :=
  let st1 : SrvState := { st with connSession := updConn st.connSession ws (some sid) }
  match lookupS st1.sessions sid with
  | none => (st1, [(ws, Msg.error "Session not found")])
  | some session =>
      let session1 := { session with clients := addClient ws session.clients }
      let st2 : SrvState := { st1 with sessions := setS st1.sessions sid session1 }
      (st2,
        (ws, Msg.init session1.code session1.language session1.clients.length) ::
          broadcastToSession st2 sid (Msg.participants session1.clients.length) none)

/-- The `codeChange` case: only acts when `currentSessionId` is set and
resolves; overwrites `session.code` unconditionally and broadcasts
`codeUpdate` to the other members. -/
def handleCodeChange (st : SrvState) (ws : Nat) (newCode : String) :
    SrvState × List (Nat × Msg) :=
  match st.connSession ws with
  | none => (st, [])
  | some sid =>
      match lookupS st.sessions sid with
      | none => (st, [])
      | some session =>
          let st2 : SrvState :=
            { st with sessions := setS st.sessions sid { session with code := newCode } }
          (st2, broadcastToSession st2 sid (Msg.codeUpdate newCode) (some ws))

/-- The `languageChange` case: same shape as `codeChange` for
`session.language`. -/
def handleLanguageChange (st : SrvState) (ws : Nat) (newLang : String) :
    SrvState × List (Nat × Msg) :=
  match st.connSession ws with
  | none => (st, [])
  | some sid =>
      match lookupS st.sessions sid with
      | none => (st, [])
      | some session =>
          let st2 : SrvState :=
            { st with sessions := setS st.sessions sid { session with language := newLang } }
          (st2, broadcastToSession st2 sid (Msg.languageUpdate newLang) (some ws))

/-- The `cursorPosition` case: no state change; broadcast `cursorUpdate`
to the other members when `currentSessionId` is set (the broadcast
itself no-ops when the session does not resolve). -/
def handleCursorPosition (st : SrvState) (ws : Nat) (userId : String) (position : Nat) :
    SrvState × List (Nat × Msg) :=
  match st.connSession ws with
  | none => (st, [])
  | some sid =>
      (st, broadcastToSession st sid (Msg.cursorUpdate userId position) (some ws))

/-- The `close` handler: the transport is closed when the event fires;
if `currentSessionId` resolves, remove the client from the members set,
broadcast the fresh participant count (no exclusion), and schedule the
one-hour grace re-check when the session became empty (the returned
`Bool`). `currentSessionId` itself is never cleared. -/
def handleClose (st : SrvState) (ws : Nat) :
    SrvState × List (Nat × Msg) × Bool :=
  let st0 : SrvState := { st with readyState := updReady st.readyState ws false }
  match st0.connSession ws with
  | none => (st0, [], false)
  | some sid =>
      match lookupS st0.sessions sid with
      | none => (st0, [], false)
      | some session =>
          let session1 :=
            { session with clients := session.clients.filter (fun d => d ≠ ws) }
          let st2 : SrvState := { st0 with sessions := setS st0.sessions sid session1 }
          (st2,
            broadcastToSession st2 sid (Msg.participants session1.clients.length) none,
            session1.clients.isEmpty)

/-- The deferred grace-period callback scheduled by the close handler:
it re-reads the connection's `currentSessionId` variable and deletes the
session only if it still exists and is still empty. -/
def graceFire (st : SrvState) (ws : Nat) : SrvState :=
  match st.connSession ws with
  | none => st
  | some sid =>
      match lookupS st.sessions sid with
      | none => st
      | some currentSession =>
          if currentSession.clients.isEmpty then
            { st with sessions := deleteS st.sessions sid }
          else st

/-- `(now - createdAt) / (1000*60*60) > 24` in JS real arithmetic,
which is exactly `now - createdAt > 86400000` ms; a `now` before
`createdAt` gives a negative (never expired) in JS, matching truncated
`Nat` subtraction here. -/
def isExpired (now : Nat) (s : Session) : Bool :=
  now - s.createdAt > 86400000

/-- The hourly max-age sweep: every session older than 24 hours has all
of its clients closed and is deleted, regardless of membership. Returns
the new state and the list of connections that were closed. The sweep
never touches any connection's `currentSessionId`. -/
def maxAgeSweep (st : SrvState) (now : Nat) : SrvState × List Nat :=
  let closed := ((st.sessions.filter (fun p => isExpired now p.2)).map
      (fun p => p.2.clients)).flatten
  ({ st with
      sessions := st.sessions.filter (fun p => !(isExpired now p.2)),
      readyState := fun c => if c ∈ closed then false else st.readyState c },
    closed)

/-- The HTTP response of the session-creation endpoint. -/
structure CreateResponse where
  status : Nat
  sessionId : String
  url : String
  deriving DecidableEq

/-- The default document text a fresh session starts with. -/
def defaultCode : String := "// Start coding here...\n"

/-- The record stored by `POST /api/sessions`. -/
def freshSession (sid : String) (now : Nat) : Session :=
  { id := sid, code := defaultCode, language := "javascript",
    clients := [], createdAt := now }

/-- `POST /api/sessions`: stores a fresh session and replies with
`res.json({ sessionId, url })`. The handler never calls `res.status`,
so Express sends its default HTTP status 200 (contrast the explicit
`res.status(404)` of the lookup route). -/
def postSessions (st : SrvState) (newId : String) (now : Nat) (baseUrl : String) :
    SrvState × CreateResponse :=
  ({ st with sessions := setS st.sessions newId (freshSession newId now) },
    { status := 200, sessionId := newId, url := baseUrl ++ "/interview/" ++ newId })

/-- Server state at process start: no sessions, no bindings, all
transports open. -/
def initialState : SrvState :=
  { sessions := [], connSession := fun _ => none, readyState := fun _ => true }

/-- How many times message `m` is delivered to connection `d` in a
delivery list. -/
def countDeliv (outs : List (Nat × Msg)) (d : Nat) (m : Msg) : Nat :=
  (outs.filter (fun pr => pr.1 = d ∧ pr.2 = m)).length

/-- Recognizer for `init` messages. -/
def isInit : Msg → Bool
  | .init _ _ _ => true
  | _ => false

/-- The server state after a successful disconnect of `ws` from `sid`
holding `sess`: the transport is closed and the member removed. -/
def closedState (st : SrvState) (ws : Nat) (sid : String) (sess : Session) : SrvState :=
  { st with
      readyState := updReady st.readyState ws false,
      sessions := setS st.sessions sid
        { sess with clients := sess.clients.filter (fun d => d ≠ ws) } }

/-- Scenario base: sessions "A" and "B" created at time 0 through the
session-creation endpoint. -/
def stAB : SrvState :=
  (postSessions (postSessions initialState "A" 0 "http://localhost:3001").1
    "B" 0 "http://localhost:3001").1

/-- Scenario: connection 0 joins "A", then joins "B" without ever
disconnecting. -/
def stDoubleJoin : SrvState :=
  (handleJoin (handleJoin stAB 0 "A").1 0 "B").1

/-- Scenario: a single session "A" created at time 0. -/
def stA : SrvState :=
  (postSessions initialState "A" 0 "http://localhost:3001").1

/-- Scenario: connection 0 has joined "A". -/
def stA0 : SrvState := (handleJoin stA 0 "A").1

/-- Scenario: after the join, connection 0 set the content to
"print(1)". -/
def stA0code : SrvState := (handleCodeChange stA0 0 "print(1)").1

/-- Scenario: connection 1 has also joined "A", so its members are
connections 0 and 1. -/
def stA01 : SrvState := (handleJoin stA0 1 "A").1

/-- Scenario: connection 0 then disconnected, leaving "A" empty. -/
def stA0closed : SrvState := (handleClose stA0 0).1

/-- Scenario: connection 1 joined "A" again before the grace timer of
connection 0's disconnect fired. -/
def stRejoin : SrvState := (handleJoin stA0closed 1 "A").1

/-- Scenario: the max-age sweep runs one millisecond past the 24-hour
age of session "A" while connection 0 is still a member. -/
def stSwept : SrvState × List Nat := maxAgeSweep stA0 86400001

/-- Scenario: the deferred close event of the swept-out connection 0
has been processed. -/
def stSweptClosed : SrvState := (handleClose stSwept.1 0).1

lemma lookupS_setS_self (m : List (String × Session)) (k : String) (v : Session) :
    lookupS (setS m k v) k = some v := by
  induction m with
  | nil => simp [setS, lookupS]
  | cons p rest ih =>
      obtain ⟨k2, v2⟩ := p
      by_cases h : k2 = k <;> simp [setS, lookupS, h, ih]

lemma lookupS_setS_ne (m : List (String × Session)) (k k2 : String) (v : Session)
    (h : k2 ≠ k) : lookupS (setS m k v) k2 = lookupS m k2 := by
  have h2 : ¬ k = k2 := fun hk => h hk.symm
  induction m with
  | nil => simp [setS, lookupS, h2]
  | cons p rest ih =>
      obtain ⟨k3, v3⟩ := p
      by_cases h3 : k3 = k
      · subst h3
        simp [setS, lookupS, h2]
      · simp [setS, lookupS, h3, ih]

lemma lookupS_deleteS_self (m : List (String × Session)) (k : String) :
    lookupS (deleteS m k) k = none := by
  induction m with
  | nil => simp [deleteS, lookupS]
  | cons p rest ih =>
      obtain ⟨k2, v2⟩ := p
      by_cases h : k2 = k <;> simp [deleteS, lookupS, h] at ih ⊢ <;> simpa [deleteS] using ih

lemma lookupS_mem {m : List (String × Session)} {k : String} {v : Session}
    (h : lookupS m k = some v) : (k, v) ∈ m := by
  induction m with
  | nil => simp [lookupS] at h
  | cons p rest ih =>
      obtain ⟨k2, v2⟩ := p
      by_cases hk : k2 = k
      · subst hk
        simp [lookupS] at h
        simp [h]
      · simp [lookupS, hk] at h
        simp [ih h]

lemma mem_addClient_self (c : Nat) (l : List Nat) : c ∈ addClient c l := by
  unfold addClient
  split <;> simp_all

lemma addClient_nodup (c : Nat) {l : List Nat} (h : l.Nodup) :
    (addClient c l).Nodup := by
  unfold addClient
  split
  · exact h
  · simp_all [List.nodup_append]

lemma countDeliv_cons_eq (a : Nat) (m : Msg) (rest : List (Nat × Msg)) (d : Nat)
    (h : a = d) : countDeliv ((a, m) :: rest) d m = countDeliv rest d m + 1 := by
  simp [countDeliv, List.filter_cons, h]

lemma countDeliv_cons_ne (x : Nat × Msg) (rest : List (Nat × Msg)) (d : Nat) (m : Msg)
    (h : ¬ (x.1 = d ∧ x.2 = m)) :
    countDeliv (x :: rest) d m = countDeliv rest d m := by
  simp [countDeliv, List.filter_cons, h]

lemma countDeliv_filter_map (cls : List Nat) (p : Nat → Bool) (m : Msg) (d : Nat)
    (hnd : cls.Nodup) :
    countDeliv ((cls.filter p).map (fun cl => (cl, m))) d m =
      if d ∈ cls ∧ p d = true then 1 else 0 := by
  induction cls with
  | nil => simp [countDeliv]
  | cons a t ih =>
      rcases List.nodup_cons.mp hnd with ⟨ha, ht⟩
      have iht := ih ht
      by_cases hpa : p a = true
      · rw [List.filter_cons_of_pos hpa, List.map_cons]
        by_cases had : a = d
        · subst had
          rw [countDeliv_cons_eq _ _ _ _ rfl, iht]
          simp [ha, hpa]
        · rw [countDeliv_cons_ne _ _ _ _ (by simp [had]), iht]
          have hda : ¬ d = a := fun h => had h.symm
          have hmem : (d ∈ a :: t) ↔ (d ∈ t) := by
            simp [List.mem_cons, hda]
          simp [hmem]
      · rw [List.filter_cons_of_neg hpa]
        rw [iht]
        by_cases had : a = d
        · subst had
          have hdt : (a ∈ t ∧ p a = true) ↔ False := by simp [hpa]
          simp [hpa, ha]
        · have hda : ¬ d = a := fun h => had h.symm
          have hmem : (d ∈ a :: t) ↔ (d ∈ t) := by
            simp [List.mem_cons, hda]
          simp [hmem]

lemma countDeliv_broadcast (st : SrvState) (sid : String) (sess : Session) (m : Msg)
    (ex : Option Nat) (d : Nat) (hs : lookupS st.sessions sid = some sess)
    (hnd : sess.clients.Nodup) :
    countDeliv (broadcastToSession st sid m ex) d m =
      if d ∈ sess.clients ∧ ex ≠ some d ∧ st.readyState d = true then 1 else 0 := by
  unfold broadcastToSession
  rw [hs]
  rw [countDeliv_filter_map _ _ _ _ hnd]
  have hb : ((decide (ex ≠ some d) && st.readyState d) = true) ↔
      (ex ≠ some d ∧ st.readyState d = true) := by simp
  simp only [hb, and_assoc]

lemma handleJoin_found_state (st : SrvState) (ws : Nat) (sid : String) (sess : Session)
    (hs : lookupS st.sessions sid = some sess) :
    (handleJoin st ws sid).1 =
      { st with
          sessions := setS st.sessions sid { sess with clients := addClient ws sess.clients },
          connSession := updConn st.connSession ws (some sid) } := by
  simp [handleJoin, hs]

lemma handleCodeChange_found (st : SrvState) (ws : Nat) (sid : String) (sess : Session)
    (newCode : String) (hc : st.connSession ws = some sid)
    (hs : lookupS st.sessions sid = some sess) :
    (handleCodeChange st ws newCode).1 =
      { st with sessions := setS st.sessions sid { sess with code := newCode } } := by
  simp [handleCodeChange, hc, hs]

/-- C3: a join naming a session id that does not exist replies with an
error message to that connection, creates no session and adds no
connection to any members set: the sessions map is unchanged and the
only outbound message is the error to the joiner. -/
theorem c3_join_unknown_session (st : SrvState) (ws : Nat) (sid : String)
    (hs : lookupS st.sessions sid = none) :
    (handleJoin st ws sid).1.sessions = st.sessions ∧
    (handleJoin st ws sid).2 = [(ws, Msg.error "Session not found")] := by
  unfold handleJoin
  simp [hs]

/-- C3 witness: joining the nonexistent session "missing" on the empty
initial state. -/
theorem c3_witness :
    (handleJoin initialState 7 "missing").1.sessions = initialState.sessions ∧
    (handleJoin initialState 7 "missing").2 =
      [(7, Msg.error "Session not found")] :=
  c3_join_unknown_session initialState 7 "missing" rfl

/-- C4: content updates on an existing session are unconditional
overwrites, last-write-wins: one update with X leaves the stored content
X, a second update with Y leaves it Y, for any members set. -/
theorem c4_last_write_wins (st : SrvState) (ws : Nat) (sid : String) (sess : Session)
    (x y : String)
    (hc : st.connSession ws = some sid) (hs : lookupS st.sessions sid = some sess) :
    (lookupS (handleCodeChange st ws x).1.sessions sid).map Session.code = some x ∧
    (lookupS (handleCodeChange (handleCodeChange st ws x).1 ws y).1.sessions sid).map
      Session.code = some y := by
  have h1 := handleCodeChange_found st ws sid sess x hc hs
  have hc2 : (handleCodeChange st ws x).1.connSession ws = some sid := by
    rw [h1]
    exact hc
  have hs2 : lookupS (handleCodeChange st ws x).1.sessions sid
      = some { sess with code := x } := by
    rw [h1]
    simpa using lookupS_setS_self st.sessions sid { sess with code := x }
  have h2 := handleCodeChange_found _ ws sid { sess with code := x } y hc2 hs2
  constructor
  · rw [h1]
    simp [lookupS_setS_self]
  · rw [h2]
    simp [lookupS_setS_self]

/-- C4 witness: on session "A" with member 0, writing "print(1)" then
"x = 2". -/
theorem c4_witness :
    (lookupS (handleCodeChange stA0 0 "print(1)").1.sessions "A").map Session.code =
      some "print(1)" ∧
    (lookupS (handleCodeChange (handleCodeChange stA0 0 "print(1)").1 0 "x = 2").1.sessions
      "A").map Session.code = some "x = 2" :=
  c4_last_write_wins stA0 0 "A" { (freshSession "A" 0) with clients := [0] }
    "print(1)" "x = 2" rfl rfl

/-- C9 counterexample: the session-creation handler calls `res.json`
without ever setting a status, so the concrete HTTP response status is
Express's default 200 — not 201 as the claim states. -/
theorem c9_counterexample :
    (postSessions initialState "abc" 0 "http://localhost:3001").2.status = 200 ∧
    (200 : Nat) ≠ 201 :=
  ⟨rfl, by decide⟩

/-- C9 amended: every POST to the session-creation endpoint succeeds,
stores a fresh session under the new id, and responds with HTTP status
200 and a body carrying the new sessionId and the shareable url. -/
theorem c9_amended_create (st : SrvState) (newId baseUrl : String) (now : Nat) :
    (postSessions st newId now baseUrl).2.status = 200 ∧
    (postSessions st newId now baseUrl).2.sessionId = newId ∧
    (postSessions st newId now baseUrl).2.url = baseUrl ++ "/interview/" ++ newId ∧
    lookupS (postSessions st newId now baseUrl).1.sessions newId =
      some (freshSession newId now) := by
  refine ⟨rfl, rfl, rfl, ?_⟩
  simp [postSessions, lookupS_setS_self]

/-- C10: when a connection's recorded session id is unset, or names a
session that no longer resolves, inbound codeChange, languageChange and
cursorPosition messages are silent no-ops: the state is returned
unchanged and no message is delivered to anyone. -/
theorem c10_unbound_noop (st : SrvState) (ws : Nat) (x l u : String) (pos : Nat)
    (h : ∀ sid, st.connSession ws = some sid → lookupS st.sessions sid = none) :
    handleCodeChange st ws x = (st, []) ∧
    handleLanguageChange st ws l = (st, []) ∧
    handleCursorPosition st ws u pos = (st, []) := by
  refine ⟨?_, ?_, ?_⟩
  · cases hcs : st.connSession ws with
    | none => simp [handleCodeChange, hcs]
    | some sid => simp [handleCodeChange, hcs, h sid hcs]
  · cases hcs : st.connSession ws with
    | none => simp [handleLanguageChange, hcs]
    | some sid => simp [handleLanguageChange, hcs, h sid hcs]
  · cases hcs : st.connSession ws with
    | none => simp [handleCursorPosition, hcs]
    | some sid => simp [handleCursorPosition, hcs, broadcastToSession, h sid hcs]

/-- C10 witness: connection 5 never joined anything on the two-session
state, so all three message kinds leave the state alone and deliver
nothing. -/
theorem c10_witness :
    handleCodeChange stAB 5 "x" = (stAB, []) ∧
    handleLanguageChange stAB 5 "python" = (stAB, []) ∧
    handleCursorPosition stAB 5 "u" 3 = (stAB, []) :=
  c10_unbound_noop stAB 5 "x" "python" "u" 3 (fun _ hs => Option.noConfusion hs)

/-- C1 counterexample: connection 0 joins session "A" and then session
"B" without disconnecting; afterwards it sits in the members sets of
both "A" and "B" at once, contradicting membership in at most one
session. -/
theorem c1_counterexample :
    (lookupS stDoubleJoin.sessions "A").map Session.clients = some [0] ∧
    (lookupS stDoubleJoin.sessions "B").map Session.clients = some [0] ∧
    ("A" : String) ≠ "B" :=
  ⟨rfl, rfl, by decide⟩

/-- C1 amended: a join for a different existing session adds the
connection to the new session's members and repoints its recorded
session id, but never removes it from the prior session's members, so
the connection is simultaneously in both members sets. -/
theorem c1_amended_join_no_unbind (st : SrvState) (ws : Nat) (sidA sidB : String)
    (sessA sessB : Session) (hne : sidA ≠ sidB)
    (hA : lookupS st.sessions sidA = some sessA)
    (hB : lookupS st.sessions sidB = some sessB) :
    (lookupS (handleJoin (handleJoin st ws sidA).1 ws sidB).1.sessions sidA).map
        Session.clients = some (addClient ws sessA.clients) ∧
    (lookupS (handleJoin (handleJoin st ws sidA).1 ws sidB).1.sessions sidB).map
        Session.clients = some (addClient ws sessB.clients) ∧
    ws ∈ addClient ws sessA.clients ∧ ws ∈ addClient ws sessB.clients ∧
    (handleJoin (handleJoin st ws sidA).1 ws sidB).1.connSession ws = some sidB := by
  have h1 := handleJoin_found_state st ws sidA sessA hA
  have hB1 : lookupS (handleJoin st ws sidA).1.sessions sidB = some sessB := by
    rw [h1]
    simpa [lookupS_setS_ne _ sidA sidB _ (Ne.symm hne)] using hB
  have h2 := handleJoin_found_state _ ws sidB sessB hB1
  refine ⟨?_, ?_, mem_addClient_self ws _, mem_addClient_self ws _, ?_⟩
  · rw [h2]
    simp only [lookupS_setS_ne _ sidB sidA _ hne]
    rw [h1]
    simp [lookupS_setS_self]
  · rw [h2]
    simp [lookupS_setS_self]
  · rw [h2]
    simp [updConn]

/-- C1 amended witness: the double join of connection 0 into "A" then
"B" on the concrete two-session state. -/
theorem c1_amended_witness :
    (lookupS (handleJoin (handleJoin stAB 0 "A").1 0 "B").1.sessions "A").map
        Session.clients = some [0] ∧
    (lookupS (handleJoin (handleJoin stAB 0 "A").1 0 "B").1.sessions "B").map
        Session.clients = some [0] ∧
    0 ∈ ([0] : List Nat) ∧ 0 ∈ ([0] : List Nat) ∧
    (handleJoin (handleJoin stAB 0 "A").1 0 "B").1.connSession 0 = some "B" :=
  c1_amended_join_no_unbind stAB 0 "A" "B" (freshSession "A" 0) (freshSession "B" 0)
    (by decide) rfl rfl

/-- C2: broadcasting `m` over a session with excluded connection `c`
delivers `m` exactly once to every member other than `c` whose transport
is open, never delivers it to `c`, and a member's delivery depends only
on that member's own membership and transport state, so a closed
transport of one member cannot prevent delivery to the others. -/
theorem c2_broadcast_exact_once (st : SrvState) (sid : String) (sess : Session)
    (m : Msg) (c d : Nat)
    (hs : lookupS st.sessions sid = some sess) (hnd : sess.clients.Nodup) :
    countDeliv (broadcastToSession st sid m (some c)) d m =
      (if d ∈ sess.clients ∧ d ≠ c ∧ st.readyState d = true then 1 else 0) ∧
    countDeliv (broadcastToSession st sid m (some c)) c m = 0 ∧
    (∀ st2 : SrvState, lookupS st2.sessions sid = some sess →
      st2.readyState d = st.readyState d →
      countDeliv (broadcastToSession st2 sid m (some c)) d m =
        countDeliv (broadcastToSession st sid m (some c)) d m) := by
  have key : ∀ (st2 : SrvState) (e : Nat), lookupS st2.sessions sid = some sess →
      countDeliv (broadcastToSession st2 sid m (some c)) e m =
        if e ∈ sess.clients ∧ e ≠ c ∧ st2.readyState e = true then 1 else 0 := by
    intro st2 e hs2
    rw [countDeliv_broadcast st2 sid sess m (some c) e hs2 hnd]
    have hiff : ((some c : Option Nat) ≠ some e) ↔ e ≠ c := by
      simp only [ne_eq, Option.some.injEq]
      exact not_congr eq_comm
    simp only [hiff]
  refine ⟨key st d hs, ?_, ?_⟩
  · rw [key st c hs]
    simp
  · intro st2 hs2 hr
    rw [key st2 d hs2, key st d hs, hr]

/-- C2 witness: broadcasting a codeUpdate over session "A" with members
0 and 1, excluding 0, delivers exactly once to 1. -/
theorem c2_witness :
    countDeliv (broadcastToSession stA01 "A" (Msg.codeUpdate "z") (some 0)) 1
        (Msg.codeUpdate "z") = 1 ∧
    countDeliv (broadcastToSession stA01 "A" (Msg.codeUpdate "z") (some 0)) 0
        (Msg.codeUpdate "z") = 0 := by
  have h := c2_broadcast_exact_once stA01 "A"
    { freshSession "A" 0 with clients := [0, 1] } (Msg.codeUpdate "z") 0 1 rfl (by decide)
  exact ⟨by simpa using h.1, h.2.1⟩

/-- C5: immediately after a successful join, the joining connection and
only it receives an init message, and that message carries the session's
current content, language and participant count. -/
theorem c5_init_to_joiner (st : SrvState) (ws : Nat) (sid : String) (sess : Session)
    (hs : lookupS st.sessions sid = some sess) :
    (handleJoin st ws sid).2.filter (fun pr => isInit pr.2) =
      [(ws, Msg.init sess.code sess.language (addClient ws sess.clients).length)] := by
  have htail : ∀ (st2 : SrvState) (k : Nat),
      (broadcastToSession st2 sid (Msg.participants k) none).filter
        (fun pr => isInit pr.2) = [] := by
    intro st2 k
    unfold broadcastToSession
    cases lookupS st2.sessions sid with
    | none => simp
    | some s2 =>
        rw [List.filter_eq_nil_iff]
        intro a ha
        rcases List.mem_map.mp ha with ⟨cl, _, rfl⟩
        simp [isInit]
  unfold handleJoin
  simp only [hs]
  rw [List.filter_cons, htail]
  simp [isInit]

/-- C5 witness: after member 0 set the content to "print(1)",
connection 1 joins and its init message carries code "print(1)",
language "javascript" and participant count 2; nobody else gets an init. -/
theorem c5_witness :
    (handleJoin stA0code 1 "A").2.filter (fun pr => isInit pr.2) =
      [(1, Msg.init "print(1)" "javascript" 2)] := by
  simpa using c5_init_to_joiner stA0code 1 "A"
    { freshSession "A" 0 with code := "print(1)", clients := [0] } rfl

/-- C6: when the deferred grace-period re-check fires for a connection
whose session is still empty, the session is deleted from the store; if
the session has regained a member before the timer fires, the firing
leaves the state entirely unchanged. -/
theorem c6_grace_check (st : SrvState) (ws : Nat) (sid : String) (sess : Session)
    (hc : st.connSession ws = some sid) (hs : lookupS st.sessions sid = some sess) :
    (sess.clients = [] → lookupS (graceFire st ws).sessions sid = none) ∧
    (sess.clients ≠ [] → graceFire st ws = st) := by
  constructor
  · intro he
    simp [graceFire, hc, hs, he, lookupS_deleteS_self]
  · intro hne
    have hne2 : sess.clients.isEmpty = false := List.isEmpty_eq_false.mpr hne
    simp [graceFire, hc, hs, hne2]

/-- C6 witness: the grace check deletes "A" after its only member
disconnected, but leaves the state untouched when connection 1 rejoined
"A" before the timer fired. -/
theorem c6_witness :
    lookupS (graceFire stA0closed 0).sessions "A" = none ∧
    graceFire stRejoin 0 = stRejoin :=
  ⟨(c6_grace_check stA0closed 0 "A" (freshSession "A" 0) rfl rfl).1 rfl,
   (c6_grace_check stRejoin 0 "A" { freshSession "A" 0 with clients := [1] }
      rfl rfl).2 (by decide)⟩

lemma handleJoin_found_out (st : SrvState) (ws : Nat) (sid : String) (sess : Session)
    (hs : lookupS st.sessions sid = some sess) :
    (handleJoin st ws sid).2 =
      (ws, Msg.init sess.code sess.language (addClient ws sess.clients).length) ::
        broadcastToSession (handleJoin st ws sid).1 sid
          (Msg.participants (addClient ws sess.clients).length) none := by
  simp [handleJoin, hs]

lemma handleClose_found (st : SrvState) (ws : Nat) (sid : String) (sess : Session)
    (hc : st.connSession ws = some sid) (hs : lookupS st.sessions sid = some sess) :
    handleClose st ws =
      (closedState st ws sid sess,
       broadcastToSession (closedState st ws sid sess) sid
         (Msg.participants (sess.clients.filter (fun d => d ≠ ws)).length) none,
       (sess.clients.filter (fun d => d ≠ ws)).isEmpty) := by
  simp [handleClose, closedState, hc, hs]

/-- C8: whenever membership changes the fresh members count is broadcast
with no exclusion: on a join, every open member of the grown members
set — including the joiner — receives the participants message exactly
once; on a disconnect, every open remaining member receives the updated
count exactly once. -/
theorem c8_participants_on_change (st : SrvState) (ws : Nat) (sid : String)
    (sess : Session) (hs : lookupS st.sessions sid = some sess)
    (hnd : sess.clients.Nodup) :
    (∀ d, countDeliv (handleJoin st ws sid).2 d
        (Msg.participants (addClient ws sess.clients).length) =
      if d ∈ addClient ws sess.clients ∧ st.readyState d = true then 1 else 0) ∧
    (st.connSession ws = some sid →
      ∀ d, countDeliv (handleClose st ws).2.1 d
          (Msg.participants (sess.clients.filter (fun e => e ≠ ws)).length) =
        if d ∈ sess.clients.filter (fun e => e ≠ ws) ∧ st.readyState d = true
        then 1 else 0) := by
  constructor
  · intro d
    rw [handleJoin_found_out st ws sid sess hs]
    rw [countDeliv_cons_ne _ _ _ _ (by simp)]
    have hst1 := handleJoin_found_state st ws sid sess hs
    have hl : lookupS (handleJoin st ws sid).1.sessions sid
        = some { sess with clients := addClient ws sess.clients } := by
      rw [hst1]
      simpa using
        lookupS_setS_self st.sessions sid { sess with clients := addClient ws sess.clients }
    rw [countDeliv_broadcast _ sid { sess with clients := addClient ws sess.clients }
      _ none d hl (addClient_nodup ws hnd)]
    rw [hst1]
    simp
  · intro hc d
    rw [handleClose_found st ws sid sess hc hs]
    have hl : lookupS (closedState st ws sid sess).sessions sid
        = some { sess with clients := sess.clients.filter (fun e => e ≠ ws) } := by
      simpa [closedState] using lookupS_setS_self st.sessions sid
        { sess with clients := sess.clients.filter (fun e => e ≠ ws) }
    have hnd2 : (sess.clients.filter (fun e => e ≠ ws)).Nodup := hnd.filter _
    rw [show (closedState st ws sid sess,
        broadcastToSession (closedState st ws sid sess) sid
          (Msg.participants (sess.clients.filter (fun e => e ≠ ws)).length) none,
        (sess.clients.filter (fun e => e ≠ ws)).isEmpty).2.1 =
      broadcastToSession (closedState st ws sid sess) sid
        (Msg.participants (sess.clients.filter (fun e => e ≠ ws)).length) none from rfl]
    rw [countDeliv_broadcast _ sid { sess with clients := sess.clients.filter (fun e => e ≠ ws) }
      _ none d hl hnd2]
    by_cases hdw : d = ws
    · subst hdw
      have hnm : d ∉ sess.clients.filter (fun e => e ≠ d) := by simp
      simp [hnm]
    · simp [closedState, updReady, hdw]

/-- C8 witness: when connection 1 joins "A" it and member 0 each receive
participants count 2 exactly once; when connection 1 then disconnects,
remaining member 0 receives participants count 1 exactly once. -/
theorem c8_witness :
    countDeliv (handleJoin stA0 1 "A").2 1 (Msg.participants 2) = 1 ∧
    countDeliv (handleClose stA01 1).2.1 0 (Msg.participants 1) = 1 := by
  have hj := (c8_participants_on_change stA0 1 "A"
    { freshSession "A" 0 with clients := [0] } rfl (by decide)).1 1
  have hcl := (c8_participants_on_change stA01 1 "A"
    { freshSession "A" 0 with clients := [0, 1] } rfl (by decide)).2 rfl 0
  exact ⟨by simpa using hj, by simpa using hcl⟩

lemma lookupS_filter_of_not_mem_keys (m : List (String × Session))
    (p : String × Session → Bool) (k : String) (h : k ∉ m.map Prod.fst) :
    lookupS (m.filter p) k = none := by
  induction m with
  | nil => simp [lookupS]
  | cons a rest ih =>
      obtain ⟨k2, v2⟩ := a
      simp only [List.map_cons, List.mem_cons] at h
      push_neg at h
      obtain ⟨hk2, hrest⟩ := h
      have hk2n : ¬ k2 = k := fun hh => hk2 hh.symm
      rw [List.filter_cons]
      split
      · simp [lookupS, hk2n, ih hrest]
      · exact ih hrest

lemma lookupS_filter_keep (m : List (String × Session)) (p : String × Session → Bool)
    (k : String) (v : Session)
    (hkeys : (m.map Prod.fst).Nodup) (h : lookupS m k = some v) :
    lookupS (m.filter p) k = if p (k, v) = true then some v else none := by
  induction m with
  | nil => simp [lookupS] at h
  | cons a rest ih =>
      obtain ⟨k2, v2⟩ := a
      simp only [List.map_cons] at hkeys
      rcases List.nodup_cons.mp hkeys with ⟨hk2, hrest⟩
      by_cases hkk : k2 = k
      · subst hkk
        have hv : v2 = v := by simpa [lookupS] using h
        subst hv
        rw [List.filter_cons]
        split
        · next hp => simp [lookupS, hp]
        · exact lookupS_filter_of_not_mem_keys rest p k2 hk2
      · have hr : lookupS rest k = some v := by simpa [lookupS, hkk] using h
        rw [List.filter_cons]
        split
        · simp [lookupS, hkk, ih hrest hr]
        · exact ih hrest hr

lemma mem_sweep_closed (st : SrvState) (now : Nat) (sid : String) (sess : Session)
    (hs : lookupS st.sessions sid = some sess) (hold : isExpired now sess = true)
    (c : Nat) (hc : c ∈ sess.clients) : c ∈ (maxAgeSweep st now).2 := by
  have hmem : (sid, sess) ∈ st.sessions := lookupS_mem hs
  have hf : (sid, sess) ∈ st.sessions.filter (fun p => isExpired now p.2) :=
    List.mem_filter.mpr ⟨hmem, hold⟩
  have hm : sess.clients ∈ (st.sessions.filter (fun p => isExpired now p.2)).map
      (fun p => p.2.clients) := List.mem_map.mpr ⟨(sid, sess), hf, rfl⟩
  exact List.mem_flatten.mpr ⟨sess.clients, hm, hc⟩

/-- C7 counterexample: the claim requires the registry to report the
closed connections unbound after the sweep, but after the max-age sweep
deletes "A" and the deferred close event of member 0 runs, connection
0's recorded session binding still reads some "A", not unbound. -/
theorem c7_counterexample :
    stSweptClosed.connSession 0 = some "A" ∧ (some "A" : Option String) ≠ none :=
  ⟨rfl, by decide⟩

/-- C7 amended: on a sweep tick every session strictly older than 24
hours is deleted regardless of membership and all of its member
connections are closed; however, the recorded session binding of each
closed connection is never cleared — after the deferred close event it
still holds the deleted session's id, which no longer resolves in the
store. -/
theorem c7_amended_max_age (st : SrvState) (sid : String) (sess : Session) (now : Nat)
    (hkeys : (st.sessions.map Prod.fst).Nodup)
    (hs : lookupS st.sessions sid = some sess)
    (hold : isExpired now sess = true) :
    lookupS (maxAgeSweep st now).1.sessions sid = none ∧
    (∀ c ∈ sess.clients, (maxAgeSweep st now).1.readyState c = false ∧
      c ∈ (maxAgeSweep st now).2) ∧
    (∀ c ∈ sess.clients, st.connSession c = some sid →
      (handleClose (maxAgeSweep st now).1 c).1.connSession c = some sid ∧
      lookupS (handleClose (maxAgeSweep st now).1 c).1.sessions sid = none) := by
  have hsessions : (maxAgeSweep st now).1.sessions
      = st.sessions.filter (fun p => !(isExpired now p.2)) := rfl
  have hconn : (maxAgeSweep st now).1.connSession = st.connSession := rfl
  have hdel : lookupS (maxAgeSweep st now).1.sessions sid = none := by
    rw [hsessions,
      lookupS_filter_keep st.sessions (fun p => !(isExpired now p.2)) sid sess hkeys hs]
    simp [hold]
  refine ⟨hdel, ?_, ?_⟩
  · intro c hcc
    have hcl := mem_sweep_closed st now sid sess hs hold c hcc
    refine ⟨?_, hcl⟩
    have hready : (maxAgeSweep st now).1.readyState c
        = if c ∈ (maxAgeSweep st now).2 then false else st.readyState c := rfl
    rw [hready]
    simp [hcl]
  · intro c hcc hconnc
    have hconnc2 : (maxAgeSweep st now).1.connSession c = some sid := by
      rw [hconn]
      exact hconnc
    have h0 : handleClose (maxAgeSweep st now).1 c =
        ({ (maxAgeSweep st now).1 with
            readyState := updReady (maxAgeSweep st now).1.readyState c false }, [], false) := by
      simp [handleClose, hconnc2, hdel]
    constructor
    · rw [h0]
      exact hconnc2
    · rw [h0]
      exact hdel

/-- C7 amended witness: session "A" created at time 0 with member 0 is
swept at 86400001 ms; it is gone from the store, connection 0 is closed,
and after its deferred close event its binding still reads some "A". -/
theorem c7_amended_witness :
    lookupS (maxAgeSweep stA0 86400001).1.sessions "A" = none ∧
    (maxAgeSweep stA0 86400001).1.readyState 0 = false ∧
    0 ∈ (maxAgeSweep stA0 86400001).2 ∧
    (handleClose (maxAgeSweep stA0 86400001).1 0).1.connSession 0 = some "A" ∧
    lookupS (handleClose (maxAgeSweep stA0 86400001).1 0).1.sessions "A" = none := by
  have h := c7_amended_max_age stA0 "A" { freshSession "A" 0 with clients := [0] }
    86400001 (by decide) rfl rfl
  exact ⟨h.1, (h.2.1 0 (by decide)).1, (h.2.1 0 (by decide)).2,
    (h.2.2 0 (by decide) rfl).1, (h.2.2 0 (by decide) rfl).2⟩

end DockerServer
